import Mathlib

/-!
Verification of the KServe deployer step lifecycle of the zenml excerpt:
the deployment-reconciliation decision procedure
(`src/zenml/integrations/kserve/steps/kserve_deployer.py`), the step
parameter validators, and the custom model server
(`src/zenml/integrations/kserve/custom_deployer/zenml_custom_model.py`).

External collaborators that are not part of the excerpt (the model deployer
registry, the service-config preparation helpers from `kserve_step_utils`,
`kserve.Storage`, the dynamic import machinery of `source_utils`) are
modelled either as explicit function parameters or, where the specification
fixes their contract, as definitions marked `Modelled from the spec`.
-/

/-- Container spec dict assigned to `service_config.containers` in
`kserve_custom_model_deployer_step` (keys name / image / command /
storage_uri). -/
structure ContainerSpec where
  name : String
  image : String
  command : List String
  storage_uri : String
deriving DecidableEq, Repr

/-- Modelled from the spec (§3 ServiceConfig): the KServe deployment service
configuration `KServeDeploymentConfig`; its class body lives in
`services/kserve_deployment.py`, outside the excerpt. Only the fields the
deployer step reads or writes are modelled: model name, model uri, predictor
kind, the three pipeline identity fields populated at deploy time, and the
optional container spec. -/
structure KServeDeploymentConfig where
  model_name : String
  model_uri : String
  predictor : String
  pipeline_name : String
  pipeline_run_id : String
  pipeline_step_name : String
  containers : Option ContainerSpec
deriving DecidableEq, Repr

/-- Modelled from the spec (§3 DeployedService): a deployed KServe service
handle, with its configuration and running flag
(`KServeDeploymentService` lives outside the excerpt). -/
structure KServeDeploymentService where
  config : KServeDeploymentConfig
  is_running : Bool
deriving DecidableEq, Repr

/-- Validated custom-deploy parameters (`CustomDeployParamters`, source
spelling kept): a dotted-path reference to the predict function. -/
structure CustomDeployParamters where
  predict_function : String
deriving DecidableEq, Repr

/-- Validated TorchServe parameters (`TorchServeParamters`, source spelling
kept). -/
structure TorchServeParamters where
  model_class : String
  handler : String
  extra_files : Option (List String)
  requirements_file : Option String
  model_version : Option String
  torch_config : Option String
deriving DecidableEq, Repr

/-- `KServeDeployerStepConfig`: the deployer step configuration. -/
structure KServeDeployerStepConfig where
  service_config : KServeDeploymentConfig
  torch_serve_paramters : Option TorchServeParamters
  custom_deploy_paramters : Option CustomDeployParamters
  timeout : Nat
deriving DecidableEq, Repr

/-- The runtime step environment the steps read
(`Environment()[STEP_ENVIRONMENT_NAME]`): pipeline name, run id, step name,
and the pipeline requirements used when building the custom image. -/
structure StepEnv where
  pipeline_name : String
  pipeline_run_id : String
  step_name : String
  pipeline_requirements : List String
deriving DecidableEq, Repr

/-- Observable interactions of a deployer step with the deployment
registry: the `find_model_server` lookup, a `service.start(timeout)` call,
and a `deploy_model(config, replace, timeout)` call. -/
inductive DeployerEvent where
  | find (pipeline_name : String) (pipeline_step_name : String)
      (model_name : String)
  | start (service : KServeDeploymentService) (timeout : Nat)
  | deploy (config : KServeDeploymentConfig) (replace : Bool) (timeout : Nat)
deriving DecidableEq, Repr

/-- Modelled from the spec (§4.1 step 3, §6 DeploymentRegistry):
`model_deployer.deploy_model(config, replace=True, timeout)` creates or
replaces the service for the config identity and returns it as a running
`DeployedService`. The `KServeModelDeployer` class is outside the excerpt. -/
def deploy_model (service_config : KServeDeploymentConfig) :
    KServeDeploymentService :=
  { config := service_config, is_running := true }

/-- Modelled from the spec (§4.1 step 2, §6): `service.start(timeout)`
contacts the serving platform and leaves the service running on success.
The service class is outside the excerpt. -/
def start_service (service : KServeDeploymentService) (_timeout : Nat) :
    KServeDeploymentService :=
  { service with is_running := true }

/-- Modelled from the spec (§4.1 step 3, §4.2): `prepare_service_config`
from `kserve_step_utils` (outside the excerpt) builds the full service
config from the step config — identity fields were already populated on
`config.service_config` by the step — and records the model uri. -/
def prepare_service_config (model_uri : String)
    (config : KServeDeployerStepConfig) : KServeDeploymentConfig :=
  { config.service_config with model_uri := model_uri }

/-- Modelled from the spec (§4.1 step 3, §4.2 framework-specific variant):
`prepare_torch_service_config` from `kserve_step_utils` (outside the
excerpt); like `prepare_service_config` it keeps the populated identity
fields and records the model uri. -/
def prepare_torch_service_config (model_uri : String)
    (config : KServeDeployerStepConfig) : KServeDeploymentConfig :=
  { config.service_config with model_uri := model_uri }

/-- Modelled from the spec (§4.1 step 3, §4.2 custom variant):
`prepare_custom_service_config` from `kserve_step_utils` (outside the
excerpt); keeps the populated identity fields and records the model uri.
The container spec is attached afterwards by the step itself. -/
def prepare_custom_service_config (model_uri : String)
    (config : KServeDeployerStepConfig) : KServeDeploymentConfig :=
  { config.service_config with model_uri := model_uri }

/-- The three assignments
`config.service_config.pipeline_name/pipeline_run_id/pipeline_step_name :=`
runtime values, performed by both deployer steps before the registry
lookup. -/
def update_runtime_config (config : KServeDeployerStepConfig)
    (env : StepEnv) : KServeDeployerStepConfig :=
  { config with service_config :=
    { config.service_config with
        pipeline_name := env.pipeline_name,
        pipeline_run_id := env.pipeline_run_id,
        pipeline_step_name := env.step_name } }

/-- `kserve_model_deployer_step` (lines 222-322 of `kserve_deployer.py`).
The registry lookup `model_deployer.find_model_server` is passed in as the
function `fms` (pipeline name → step name → model name → matching services,
most recent first). Returns the trace of registry events, the returned
service, and the (mutated) step config. -/
def kserve_model_deployer_step
    (fms : String → String → String → List KServeDeploymentService)
    (deploy_decision : Bool) (config : KServeDeployerStepConfig)
    (env : StepEnv) (model_uri : String) :
    List DeployerEvent × KServeDeploymentService × KServeDeployerStepConfig :=
  let config := update_runtime_config config env
  let existing_services :=
    fms env.pipeline_name env.step_name config.service_config.model_name
  let findEv := DeployerEvent.find env.pipeline_name env.step_name
    config.service_config.model_name
  match deploy_decision, existing_services with
  | false, service :: _ =>
    if service.is_running then ([findEv], service, config)
    else ([findEv, DeployerEvent.start service config.timeout],
      start_service service config.timeout, config)
  | _, _ =>
    let service_config :=
      if config.service_config.predictor = "pytorch" then
        prepare_torch_service_config model_uri config
      else
        prepare_service_config model_uri config
    let service := deploy_model service_config
    ([findEv, DeployerEvent.deploy service_config true config.timeout],
      service, config)

/-- The fixed entrypoint command list built by
`kserve_custom_model_deployer_step` (lines 392-400). -/
def entrypoint_command (model_name : String) (predict_function : String) :
    List String :=
  ["python", "-m",
   "zenml.integrations.kserve.custom_deployer.zenml_custom_model",
   "--model_name", model_name,
   "--predict_func", predict_function]

/-- `kserve_custom_model_deployer_step` (lines 325-449 of
`kserve_deployer.py`). `fms` is the registry lookup; `prepare_image` is
`model_deployer.prepare_custom_deployment_image` (pipeline name → step name
→ pipeline requirements → entrypoint command → image name), an external
image build outside the excerpt. Raises `ValueError` (the `Except.error`
case) when `custom_deploy_paramters` is absent. -/
def kserve_custom_model_deployer_step
    (fms : String → String → String → List KServeDeploymentService)
    (prepare_image : String → String → List String → List String → String)
    (deploy_decision : Bool) (config : KServeDeployerStepConfig)
    (env : StepEnv) (model_uri : String) :
    List DeployerEvent ×
      Except String (KServeDeploymentService × KServeDeployerStepConfig) :=
  match config.custom_deploy_paramters with
  | none => ([], Except.error "Custom deploy paramters are required.")
  | some custom_deploy_paramters =>
    let config := update_runtime_config config env
    let existing_services :=
      fms env.pipeline_name env.step_name config.service_config.model_name
    let findEv := DeployerEvent.find env.pipeline_name env.step_name
      config.service_config.model_name
    match deploy_decision, existing_services with
    | false, service :: _ =>
      if service.is_running then ([findEv], Except.ok (service, config))
      else ([findEv, DeployerEvent.start service config.timeout],
        Except.ok (start_service service config.timeout, config))
    | _, _ =>
      let cmd := entrypoint_command config.service_config.model_name
        custom_deploy_paramters.predict_function
      let custom_docker_image_name :=
        prepare_image env.pipeline_name env.step_name
          env.pipeline_requirements cmd
      let service_config := prepare_custom_service_config model_uri config
      let container : ContainerSpec :=
        { name := service_config.model_name,
          image := custom_docker_image_name,
          command := cmd,
          storage_uri := service_config.model_uri }
      let service_config := { service_config with containers := some container }
      let service := deploy_model service_config
      ([findEv, DeployerEvent.deploy service_config true config.timeout],
        Except.ok (service, config))

/-- Python exception classes the validators and steps distinguish:
`ValueError` (pydantic turns validator ValueErrors into configuration
validation failures) versus an import-machinery error (`ImportError` /
`ModuleNotFoundError`) that no validator catches. -/
inductive PyError where
  | valueError (msg : String)
  | importError (msg : String)
deriving DecidableEq, Repr

/-- Outcome of `import_class_by_path(v)` from `zenml.utils.source_utils`
(outside the excerpt): it imports the module part of the dotted path and
returns `getattr(module, attribute)` — any object, callable or not
(`found is_callable`); it raises `AttributeError` when the module exists
but the attribute does not, and an `ImportError`-class error when the
module itself cannot be imported. -/
inductive ImportResult where
  | found (is_callable : Bool)
  | attributeError
  | importError
deriving DecidableEq, Repr

/-- `TORCH_HANDLERS` (lines 46-51): the built-in TorchServe handler
names. -/
def TORCH_HANDLERS : List String :=
  ["image_classifier", "image_segmenter", "object_detector",
   "text_classifier"]

/-- `os.path.join(root, v)` as used by the validators: a path that is
already absolute is returned as is, otherwise it is appended to the
root. -/
def os_path_join (root : String) (v : String) : String :=
  if v.startsWith "/" then v else root ++ "/" ++ v

/-- `TorchServeParamters.model_class_validate` (lines 74-93), over an
abstract `is_inside_repository` predicate `inside` and source root
`root`. -/
def model_class_validate (inside : String → Bool) (root : String)
    (v : String) : Except PyError String :=
  if v = "" then
    Except.error (PyError.valueError "Model class file path is required.")
  else if inside v then Except.ok (os_path_join root v)
  else Except.error
    (PyError.valueError "Model class file path must be inside the repository.")

/-- `TorchServeParamters.handler_validate` (lines 95-119). -/
def handler_validate (inside : String → Bool) (root : String)
    (v : String) : Except PyError String :=
  if v ≠ "" then
    if v ∈ TORCH_HANDLERS then Except.ok v
    else if inside v then Except.ok (os_path_join root v)
    else Except.error (PyError.valueError
      "Handler must be one of the TorchServe handlers or a file that exists inside the repository.")
  else Except.error (PyError.valueError "Handler is required.")

/-- The loop body of `TorchServeParamters.extra_files_validate`
(lines 136-147): each file path must be inside the repository; the first
one outside raises. -/
def validate_extra_files_list (inside : String → Bool) (root : String) :
    List String → Except PyError (List String)
  | [] => Except.ok []
  | file_path :: rest =>
    if inside file_path then
      match validate_extra_files_list inside root rest with
      | Except.error e => Except.error e
      | Except.ok tail => Except.ok (os_path_join root file_path :: tail)
    else Except.error
      (PyError.valueError "Extra file path must be inside the repository.")

/-- `TorchServeParamters.extra_files_validate` (lines 121-148): `None`
passes through unchanged. -/
def extra_files_validate (inside : String → Bool) (root : String) :
    Option (List String) → Except PyError (Option (List String))
  | none => Except.ok none
  | some v =>
    match validate_extra_files_list inside root v with
    | Except.error e => Except.error e
    | Except.ok files => Except.ok (some files)

/-- `TorchServeParamters.torch_config_validate` (lines 150-170): a falsy
value (`None` or the empty string) passes through unchanged. -/
def torch_config_validate (inside : String → Bool) (root : String) :
    Option String → Except PyError (Option String)
  | none => Except.ok none
  | some v =>
    if v ≠ "" then
      if inside v then Except.ok (some (os_path_join root v))
      else Except.error
        (PyError.valueError "Torch config file path must be inside the repository.")
    else Except.ok (some v)

/-- Raw keyword arguments of `TorchServeParamters(...)` before
validation. -/
structure TorchServeInput where
  model_class : String
  handler : String
  extra_files : Option (List String)
  requirements_file : Option String
  model_version : Option String
  torch_config : Option String
deriving DecidableEq, Repr

/-- Pydantic construction of `TorchServeParamters`: every field validator
runs (each depends only on its own field); construction fails iff any
validator fails, and otherwise each field holds its validator's rewritten
value. `requirements_file` and `model_version` have no validators. -/
def mkTorchServeParamters (inside : String → Bool) (root : String)
    (p : TorchServeInput) : Except PyError TorchServeParamters :=
  match model_class_validate inside root p.model_class with
  | Except.error e => Except.error e
  | Except.ok mc =>
    match handler_validate inside root p.handler with
    | Except.error e => Except.error e
    | Except.ok h =>
      match extra_files_validate inside root p.extra_files with
      | Except.error e => Except.error e
      | Except.ok ef =>
        match torch_config_validate inside root p.torch_config with
        | Except.error e => Except.error e
        | Except.ok tc =>
          Except.ok
            { model_class := mc, handler := h, extra_files := ef,
              requirements_file := p.requirements_file,
              model_version := p.model_version, torch_config := tc }

/-- `CustomDeployParamters.predict_function_validate` (lines 182-201), over
an abstract import resolver: an empty path and an `AttributeError` from
`import_class_by_path` become `ValueError`s; any found attribute (callable
or not) passes; an `ImportError`-class failure is not caught and
propagates. -/
def predict_function_validate (resolve : String → ImportResult)
    (v : String) : Except PyError String :=
  if v = "" then
    Except.error (PyError.valueError "Predict function path is required.")
  else
    match resolve v with
    | ImportResult.found _ => Except.ok v
    | ImportResult.attributeError =>
      Except.error (PyError.valueError "Predict function can't be found.")
    | ImportResult.importError =>
      Except.error (PyError.importError "No module named ...")

/-- Pydantic construction of `CustomDeployParamters` (lines 173-201). -/
def mkCustomDeployParamters (resolve : String → ImportResult)
    (predict_function : String) : Except PyError CustomDeployParamters :=
  match predict_function_validate resolve predict_function with
  | Except.error e => Except.error e
  | Except.ok pf => Except.ok { predict_function := pf }

/-- A Python object as seen by the custom model server: either a mapping
(a dict) or some non-mapping value. -/
inductive PyObj where
  | dict (entries : List (String × String))
  | other (repr_str : String)
deriving DecidableEq, Repr

/-- Whether a Python object is a mapping. -/
def PyObj.is_mapping : PyObj → Bool
  | PyObj.dict _ => true
  | PyObj.other _ => false

/-- Exceptions `ZenMLCustomModel.predict` can raise: the generic
`Exception("Failed to predict: ...")` (the spec's `PredictionError`) and
`NotImplementedError`. -/
inductive PredictErr where
  | predictionError (msg : String)
  | notImplementedError (msg : String)
deriving DecidableEq, Repr

/-- `ZenMLCustomModel` (lines 32-96 of `zenml_custom_model.py`): name,
model uri, the bound predict function (the imported attribute; `none`
models a `None` attribute), the loaded model, and the ready flag. -/
structure ZenMLCustomModel where
  name : String
  model_uri : String
  predict_func : Option (PyObj → Except String PyObj)
  model : Option PyObj
  ready : Bool

/-- Sample service configuration used by the concrete witnesses. -/
def sample_service_config : KServeDeploymentConfig :=
  { model_name := "fraud-model", model_uri := "s3://old",
    predictor := "sklearn", pipeline_name := "stale-pipe",
    pipeline_run_id := "stale-run", pipeline_step_name := "stale-step",
    containers := none }

/-- Sample deployer step configuration used by the concrete witnesses. -/
def sample_config : KServeDeployerStepConfig :=
  { service_config := sample_service_config,
    torch_serve_paramters := none,
    custom_deploy_paramters := some { predict_function := "pkg.mod.fn" },
    timeout := 120 }

/-- Sample runtime environment used by the concrete witnesses. -/
def sample_env : StepEnv :=
  { pipeline_name := "fraud-pipe", pipeline_run_id := "run-1",
    step_name := "eval_step", pipeline_requirements := ["zenml"] }

/-- A registry lookup that finds no existing service. -/
def fms_empty : String → String → String → List KServeDeploymentService :=
  fun _ _ _ => []

/-- A running sample service. -/
def sample_running_service : KServeDeploymentService :=
  { config := sample_service_config, is_running := true }

/-- A stopped sample service. -/
def sample_stopped_service : KServeDeploymentService :=
  { config := sample_service_config, is_running := false }

/-- A registry lookup that finds one running service. -/
def fms_one_running : String → String → String → List KServeDeploymentService :=
  fun _ _ _ => [sample_running_service]

/-- A registry lookup that finds one stopped service. -/
def fms_one_stopped : String → String → String → List KServeDeploymentService :=
  fun _ _ _ => [sample_stopped_service]

/-- A sample custom-image build result. -/
def sample_prepare_image :
    String → String → List String → List String → String :=
  fun _ _ _ _ => "registry.example.com/zenml-custom:1"

/-- Claim C1: with deploy_decision = false and a registry lookup returning
zero existing services for the identity, `kserve_model_deployer_step` still
falls through to the deploy path: the trace is the lookup followed by
exactly one `deploy_model(sc, replace := true, timeout)` call, the returned
service is the deployed one, it is running, and the deployed config carries
the invocation identity. -/
theorem deployer_step_no_service_fallback_deploys
    (fms : String → String → String → List KServeDeploymentService)
    (config : KServeDeployerStepConfig) (env : StepEnv) (model_uri : String)
    (h : fms env.pipeline_name env.step_name config.service_config.model_name
      = []) :
    ∃ sc : KServeDeploymentConfig,
      (kserve_model_deployer_step fms false config env model_uri).1 =
        [DeployerEvent.find env.pipeline_name env.step_name
           config.service_config.model_name,
         DeployerEvent.deploy sc true config.timeout] ∧
      (kserve_model_deployer_step fms false config env model_uri).2.1 =
        deploy_model sc ∧
      (kserve_model_deployer_step fms false config env model_uri).2.1.is_running
        = true ∧
      sc.pipeline_name = env.pipeline_name ∧
      sc.pipeline_step_name = env.step_name ∧
      sc.model_name = config.service_config.model_name := by
  refine ⟨{ config.service_config with
      model_uri := model_uri,
      pipeline_name := env.pipeline_name,
      pipeline_run_id := env.pipeline_run_id,
      pipeline_step_name := env.step_name }, ?_⟩
  simp only [kserve_model_deployer_step, update_runtime_config,
    prepare_service_config, prepare_torch_service_config, deploy_model]
  rw [show ({ config.service_config with
      pipeline_name := env.pipeline_name,
      pipeline_run_id := env.pipeline_run_id,
      pipeline_step_name := env.step_name :
      KServeDeploymentConfig }).model_name
    = config.service_config.model_name from rfl] at *
  rw [h]
  simp [ite_self]

/-- Witness for C1 at a concrete input. -/
theorem deployer_step_no_service_fallback_deploys_witness :
    fms_empty sample_env.pipeline_name sample_env.step_name
      sample_config.service_config.model_name = [] ∧
    ∃ sc : KServeDeploymentConfig,
      (kserve_model_deployer_step fms_empty false sample_config sample_env
        "s3://new").1 =
        [DeployerEvent.find sample_env.pipeline_name sample_env.step_name
           sample_config.service_config.model_name,
         DeployerEvent.deploy sc true sample_config.timeout] ∧
      (kserve_model_deployer_step fms_empty false sample_config sample_env
        "s3://new").2.1 = deploy_model sc ∧
      (kserve_model_deployer_step fms_empty false sample_config sample_env
        "s3://new").2.1.is_running = true ∧
      sc.pipeline_name = sample_env.pipeline_name ∧
      sc.pipeline_step_name = sample_env.step_name ∧
      sc.model_name = sample_config.service_config.model_name :=
  ⟨rfl, deployer_step_no_service_fallback_deploys fms_empty sample_config
    sample_env "s3://new" rfl⟩

/-- Claim C2: with deploy_decision = false and at least one existing
service found, both deployer steps select the first returned service and
never call deploy: a running service is returned unchanged with a trace
holding only the lookup, while a non-running one gets exactly one
`start(timeout)` call and the started (now running) service is returned. -/
theorem deployer_step_reuses_existing_service
    (fms : String → String → String → List KServeDeploymentService)
    (prepare_image : String → String → List String → List String → String)
    (config : KServeDeployerStepConfig) (env : StepEnv) (model_uri : String)
    (service : KServeDeploymentService) (rest : List KServeDeploymentService)
    (h : fms env.pipeline_name env.step_name config.service_config.model_name
      = service :: rest) :
    (kserve_model_deployer_step fms false config env model_uri =
      (if service.is_running then
        ([DeployerEvent.find env.pipeline_name env.step_name
            config.service_config.model_name],
         service, update_runtime_config config env)
      else
        ([DeployerEvent.find env.pipeline_name env.step_name
            config.service_config.model_name,
          DeployerEvent.start service config.timeout],
         start_service service config.timeout,
         update_runtime_config config env))) ∧
    (start_service service config.timeout).is_running = true ∧
    (∀ cdp : CustomDeployParamters,
      config.custom_deploy_paramters = some cdp →
      kserve_custom_model_deployer_step fms prepare_image false config env
        model_uri =
        (if service.is_running then
          ([DeployerEvent.find env.pipeline_name env.step_name
              config.service_config.model_name],
           Except.ok (service, update_runtime_config config env))
        else
          ([DeployerEvent.find env.pipeline_name env.step_name
              config.service_config.model_name,
            DeployerEvent.start service config.timeout],
           Except.ok (start_service service config.timeout,
             update_runtime_config config env)))) := by
  refine ⟨?_, rfl, ?_⟩
  · simp only [kserve_model_deployer_step, update_runtime_config]
    rw [show ({ config.service_config with
        pipeline_name := env.pipeline_name,
        pipeline_run_id := env.pipeline_run_id,
        pipeline_step_name := env.step_name :
        KServeDeploymentConfig }).model_name
      = config.service_config.model_name from rfl]
    rw [h]
  · intro cdp hcd
    simp only [kserve_custom_model_deployer_step, hcd,
      update_runtime_config]
    rw [show ({ config.service_config with
        pipeline_name := env.pipeline_name,
        pipeline_run_id := env.pipeline_run_id,
        pipeline_step_name := env.step_name :
        KServeDeploymentConfig }).model_name
      = config.service_config.model_name from rfl]
    rw [h]

/-- Witness for C2 at a concrete input (one existing running service). -/
theorem deployer_step_reuses_existing_service_witness :
    fms_one_running sample_env.pipeline_name sample_env.step_name
      sample_config.service_config.model_name =
      sample_running_service :: [] ∧
    (kserve_model_deployer_step fms_one_running false sample_config
      sample_env "s3://new" =
      (if sample_running_service.is_running then
        ([DeployerEvent.find sample_env.pipeline_name sample_env.step_name
            sample_config.service_config.model_name],
         sample_running_service, update_runtime_config sample_config
           sample_env)
      else
        ([DeployerEvent.find sample_env.pipeline_name sample_env.step_name
            sample_config.service_config.model_name,
          DeployerEvent.start sample_running_service sample_config.timeout],
         start_service sample_running_service sample_config.timeout,
         update_runtime_config sample_config sample_env))) ∧
    (start_service sample_running_service sample_config.timeout).is_running
      = true ∧
    (∀ cdp : CustomDeployParamters,
      sample_config.custom_deploy_paramters = some cdp →
      kserve_custom_model_deployer_step fms_one_running sample_prepare_image
        false sample_config sample_env "s3://new" =
        (if sample_running_service.is_running then
          ([DeployerEvent.find sample_env.pipeline_name sample_env.step_name
              sample_config.service_config.model_name],
           Except.ok (sample_running_service,
             update_runtime_config sample_config sample_env))
        else
          ([DeployerEvent.find sample_env.pipeline_name sample_env.step_name
              sample_config.service_config.model_name,
            DeployerEvent.start sample_running_service
              sample_config.timeout],
           Except.ok (start_service sample_running_service
             sample_config.timeout,
             update_runtime_config sample_config sample_env)))) :=
  ⟨rfl, deployer_step_reuses_existing_service fms_one_running
    sample_prepare_image sample_config sample_env "s3://new"
    sample_running_service [] rfl⟩

/-- Claim C3: with deploy_decision = true both deployer steps, regardless
of what the registry lookup returns, build a fresh service config and call
deploy with replace = true and the configured timeout, and the pipeline
name, step name and model name of the config passed to deploy equal the
invocation identity (the returned service is the deployed one). -/
theorem deployer_step_deploy_decision_true_always_deploys
    (fms : String → String → String → List KServeDeploymentService)
    (prepare_image : String → String → List String → List String → String)
    (config : KServeDeployerStepConfig) (env : StepEnv)
    (model_uri : String) :
    (∃ sc : KServeDeploymentConfig,
      (kserve_model_deployer_step fms true config env model_uri).1 =
        [DeployerEvent.find env.pipeline_name env.step_name
           config.service_config.model_name,
         DeployerEvent.deploy sc true config.timeout] ∧
      (kserve_model_deployer_step fms true config env model_uri).2.1 =
        deploy_model sc ∧
      sc.pipeline_name = env.pipeline_name ∧
      sc.pipeline_step_name = env.step_name ∧
      sc.model_name = config.service_config.model_name) ∧
    (∀ cdp : CustomDeployParamters,
      config.custom_deploy_paramters = some cdp →
      ∃ sc : KServeDeploymentConfig,
        (kserve_custom_model_deployer_step fms prepare_image true config
          env model_uri).1 =
          [DeployerEvent.find env.pipeline_name env.step_name
             config.service_config.model_name,
           DeployerEvent.deploy sc true config.timeout] ∧
        (kserve_custom_model_deployer_step fms prepare_image true config
          env model_uri).2 =
          Except.ok (deploy_model sc, update_runtime_config config env) ∧
        sc.pipeline_name = env.pipeline_name ∧
        sc.pipeline_step_name = env.step_name ∧
        sc.model_name = config.service_config.model_name) := by
  constructor
  · simp only [kserve_model_deployer_step, update_runtime_config,
      prepare_service_config, prepare_torch_service_config, ite_self]
    exact ⟨_, rfl, rfl, rfl, rfl, rfl⟩
  · intro cdp hcd
    simp only [kserve_custom_model_deployer_step, hcd,
      update_runtime_config, prepare_custom_service_config]
    exact ⟨_, rfl, rfl, rfl, rfl, rfl⟩

/-- Witness for C3 at a concrete input. -/
theorem deployer_step_deploy_decision_true_always_deploys_witness :
    (∃ sc : KServeDeploymentConfig,
      (kserve_model_deployer_step fms_one_running true sample_config
        sample_env "s3://new").1 =
        [DeployerEvent.find sample_env.pipeline_name sample_env.step_name
           sample_config.service_config.model_name,
         DeployerEvent.deploy sc true sample_config.timeout] ∧
      (kserve_model_deployer_step fms_one_running true sample_config
        sample_env "s3://new").2.1 = deploy_model sc ∧
      sc.pipeline_name = sample_env.pipeline_name ∧
      sc.pipeline_step_name = sample_env.step_name ∧
      sc.model_name = sample_config.service_config.model_name) ∧
    (∀ cdp : CustomDeployParamters,
      sample_config.custom_deploy_paramters = some cdp →
      ∃ sc : KServeDeploymentConfig,
        (kserve_custom_model_deployer_step fms_one_running
          sample_prepare_image true sample_config sample_env
          "s3://new").1 =
          [DeployerEvent.find sample_env.pipeline_name sample_env.step_name
             sample_config.service_config.model_name,
           DeployerEvent.deploy sc true sample_config.timeout] ∧
        (kserve_custom_model_deployer_step fms_one_running
          sample_prepare_image true sample_config sample_env
          "s3://new").2 =
          Except.ok (deploy_model sc,
            update_runtime_config sample_config sample_env) ∧
        sc.pipeline_name = sample_env.pipeline_name ∧
        sc.pipeline_step_name = sample_env.step_name ∧
        sc.model_name = sample_config.service_config.model_name) :=
  deployer_step_deploy_decision_true_always_deploys fms_one_running
    sample_prepare_image sample_config sample_env "s3://new"

/-- Claim C9: on every invocation (any deploy decision, any lookup result)
both deployer steps return the supplied step config changed exactly in the
three runtime identity fields of its service config — pipeline name, run
id and step name — and the registry lookup (the first traced event) already
uses the overwritten pipeline identity; on the reuse path in particular no
other field of the supplied config is modified. -/
theorem deployer_step_overwrites_runtime_identity
    (fms : String → String → String → List KServeDeploymentService)
    (prepare_image : String → String → List String → List String → String)
    (deploy_decision : Bool) (config : KServeDeployerStepConfig)
    (env : StepEnv) (model_uri : String) :
    ((kserve_model_deployer_step fms deploy_decision config env
        model_uri).2.2 =
      { config with service_config :=
        { config.service_config with
            pipeline_name := env.pipeline_name,
            pipeline_run_id := env.pipeline_run_id,
            pipeline_step_name := env.step_name } } ∧
     (kserve_model_deployer_step fms deploy_decision config env
        model_uri).1.head? =
       some (DeployerEvent.find env.pipeline_name env.step_name
         config.service_config.model_name)) ∧
    (∀ cdp : CustomDeployParamters,
      config.custom_deploy_paramters = some cdp →
      (∃ s : KServeDeploymentService,
        (kserve_custom_model_deployer_step fms prepare_image
          deploy_decision config env model_uri).2 =
        Except.ok (s,
          { config with service_config :=
            { config.service_config with
                pipeline_name := env.pipeline_name,
                pipeline_run_id := env.pipeline_run_id,
                pipeline_step_name := env.step_name } })) ∧
      (kserve_custom_model_deployer_step fms prepare_image deploy_decision
        config env model_uri).1.head? =
        some (DeployerEvent.find env.pipeline_name env.step_name
          config.service_config.model_name)) := by
  have hproj : ({ config.service_config with
      pipeline_name := env.pipeline_name,
      pipeline_run_id := env.pipeline_run_id,
      pipeline_step_name := env.step_name :
      KServeDeploymentConfig }).model_name
      = config.service_config.model_name := rfl
  constructor
  · simp only [kserve_model_deployer_step, update_runtime_config, hproj]
    cases deploy_decision <;>
      rcases hE : fms env.pipeline_name env.step_name
        config.service_config.model_name with _ | ⟨s, rest⟩ <;>
      first
        | exact ⟨rfl, rfl⟩
        | (by_cases hr : s.is_running = true <;> simp [hr])
  · intro cdp hcd
    simp only [kserve_custom_model_deployer_step, hcd,
      update_runtime_config, hproj]
    cases deploy_decision <;>
      rcases hE : fms env.pipeline_name env.step_name
        config.service_config.model_name with _ | ⟨s, rest⟩ <;>
      first
        | exact ⟨⟨_, rfl⟩, rfl⟩
        | (by_cases hr : s.is_running = true <;> simp [hr])

/-- Witness for C9 at a concrete input. -/
theorem deployer_step_overwrites_runtime_identity_witness :
    ((kserve_model_deployer_step fms_one_stopped false sample_config
        sample_env "s3://new").2.2 =
      { sample_config with service_config :=
        { sample_config.service_config with
            pipeline_name := sample_env.pipeline_name,
            pipeline_run_id := sample_env.pipeline_run_id,
            pipeline_step_name := sample_env.step_name } } ∧
     (kserve_model_deployer_step fms_one_stopped false sample_config
        sample_env "s3://new").1.head? =
       some (DeployerEvent.find sample_env.pipeline_name
         sample_env.step_name
         sample_config.service_config.model_name)) ∧
    (∀ cdp : CustomDeployParamters,
      sample_config.custom_deploy_paramters = some cdp →
      (∃ s : KServeDeploymentService,
        (kserve_custom_model_deployer_step fms_one_stopped
          sample_prepare_image false sample_config sample_env
          "s3://new").2 =
        Except.ok (s,
          { sample_config with service_config :=
            { sample_config.service_config with
                pipeline_name := sample_env.pipeline_name,
                pipeline_run_id := sample_env.pipeline_run_id,
                pipeline_step_name := sample_env.step_name } })) ∧
      (kserve_custom_model_deployer_step fms_one_stopped
        sample_prepare_image false sample_config sample_env
        "s3://new").1.head? =
        some (DeployerEvent.find sample_env.pipeline_name
          sample_env.step_name
          sample_config.service_config.model_name)) :=
  deployer_step_overwrites_runtime_identity fms_one_stopped
    sample_prepare_image false sample_config sample_env "s3://new"

/-- A step configuration with no custom-deploy parameters. -/
def sample_config_no_custom : KServeDeployerStepConfig :=
  { sample_config with custom_deploy_paramters := none }

/-- Claim C10: when `custom_deploy_paramters` is absent the custom deployer
step raises ValueError immediately: the result is the error and the trace
is empty — no registry lookup, start or deploy happened. -/
theorem custom_step_requires_custom_deploy_paramters
    (fms : String → String → String → List KServeDeploymentService)
    (prepare_image : String → String → List String → List String → String)
    (deploy_decision : Bool) (config : KServeDeployerStepConfig)
    (env : StepEnv) (model_uri : String)
    (h : config.custom_deploy_paramters = none) :
    kserve_custom_model_deployer_step fms prepare_image deploy_decision
      config env model_uri =
      ([], Except.error "Custom deploy paramters are required.") := by
  simp [kserve_custom_model_deployer_step, h]

/-- Witness for C10 at a concrete input. -/
theorem custom_step_requires_custom_deploy_paramters_witness :
    sample_config_no_custom.custom_deploy_paramters = none ∧
    kserve_custom_model_deployer_step fms_one_running sample_prepare_image
      true sample_config_no_custom sample_env "s3://new" =
      ([], Except.error "Custom deploy paramters are required.") :=
  ⟨rfl, custom_step_requires_custom_deploy_paramters fms_one_running
    sample_prepare_image true sample_config_no_custom sample_env "s3://new"
    rfl⟩

/-- Claim C5: on the deploy path of the custom deployer step (deploy
decision true, or no existing service found) the config passed to deploy
carries exactly the container spec {name: the config model name, image: the
externally built image, command: the fixed seven-element entrypoint,
storage_uri: the config model uri}, where the entrypoint is
python -m zenml.integrations.kserve.custom_deployer.zenml_custom_model
--model_name name --predict_func predict_function. -/
theorem custom_step_builds_container_spec
    (fms : String → String → String → List KServeDeploymentService)
    (prepare_image : String → String → List String → List String → String)
    (deploy_decision : Bool) (config : KServeDeployerStepConfig)
    (env : StepEnv) (model_uri : String) (cdp : CustomDeployParamters)
    (h : config.custom_deploy_paramters = some cdp)
    (hpath : deploy_decision = true ∨
      fms env.pipeline_name env.step_name config.service_config.model_name
        = []) :
    ∃ sc : KServeDeploymentConfig,
      (kserve_custom_model_deployer_step fms prepare_image deploy_decision
        config env model_uri).1 =
        [DeployerEvent.find env.pipeline_name env.step_name
           config.service_config.model_name,
         DeployerEvent.deploy sc true config.timeout] ∧
      sc.containers = some
        { name := config.service_config.model_name,
          image := prepare_image env.pipeline_name env.step_name
            env.pipeline_requirements
            (entrypoint_command config.service_config.model_name
              cdp.predict_function),
          command := entrypoint_command config.service_config.model_name
            cdp.predict_function,
          storage_uri := model_uri } ∧
      entrypoint_command config.service_config.model_name
          cdp.predict_function =
        ["python", "-m",
         "zenml.integrations.kserve.custom_deployer.zenml_custom_model",
         "--model_name", config.service_config.model_name,
         "--predict_func", cdp.predict_function] ∧
      sc.model_name = config.service_config.model_name ∧
      sc.model_uri = model_uri := by
  rcases hpath with hdd | hE
  · subst hdd
    simp only [kserve_custom_model_deployer_step, h, update_runtime_config,
      prepare_custom_service_config]
    exact ⟨_, rfl, rfl, rfl, rfl, rfl⟩
  · cases deploy_decision
    · simp only [kserve_custom_model_deployer_step, h,
        update_runtime_config, prepare_custom_service_config]
      rw [show ({ config.service_config with
          pipeline_name := env.pipeline_name,
          pipeline_run_id := env.pipeline_run_id,
          pipeline_step_name := env.step_name :
          KServeDeploymentConfig }).model_name
        = config.service_config.model_name from rfl]
      rw [hE]
      exact ⟨_, rfl, rfl, rfl, rfl, rfl⟩
    · simp only [kserve_custom_model_deployer_step, h,
        update_runtime_config, prepare_custom_service_config]
      exact ⟨_, rfl, rfl, rfl, rfl, rfl⟩

/-- Witness for C5 at a concrete input. -/
theorem custom_step_builds_container_spec_witness :
    sample_config.custom_deploy_paramters =
      some { predict_function := "pkg.mod.fn" } ∧
    (true = true ∨ fms_one_running sample_env.pipeline_name
      sample_env.step_name sample_config.service_config.model_name = []) ∧
    ∃ sc : KServeDeploymentConfig,
      (kserve_custom_model_deployer_step fms_one_running
        sample_prepare_image true sample_config sample_env "s3://new").1 =
        [DeployerEvent.find sample_env.pipeline_name sample_env.step_name
           sample_config.service_config.model_name,
         DeployerEvent.deploy sc true sample_config.timeout] ∧
      sc.containers = some
        { name := sample_config.service_config.model_name,
          image := sample_prepare_image sample_env.pipeline_name
            sample_env.step_name sample_env.pipeline_requirements
            (entrypoint_command sample_config.service_config.model_name
              "pkg.mod.fn"),
          command := entrypoint_command
            sample_config.service_config.model_name "pkg.mod.fn",
          storage_uri := "s3://new" } ∧
      entrypoint_command sample_config.service_config.model_name
          "pkg.mod.fn" =
        ["python", "-m",
         "zenml.integrations.kserve.custom_deployer.zenml_custom_model",
         "--model_name", sample_config.service_config.model_name,
         "--predict_func", "pkg.mod.fn"] ∧
      sc.model_name = sample_config.service_config.model_name ∧
      sc.model_uri = "s3://new" :=
  ⟨rfl, Or.inl rfl, custom_step_builds_container_spec fms_one_running
    sample_prepare_image true sample_config sample_env "s3://new"
    { predict_function := "pkg.mod.fn" } rfl (Or.inl rfl)⟩

/-- `ZenMLCustomModel.load` (lines 46-56 of `zenml_custom_model.py`):
`kserve.Storage.download` (the `download` argument, an external call) runs
outside the try block, so its exceptions propagate out of `load`; only
`_load_model_with_zenml_artifact` (the `load_artifact` argument, lines
76-96, whose artifact-manifest / materializer machinery performs external
effects) is guarded — its exception is logged and `False` is returned with
the state untouched; on success the model is stored, the ready flag is set
and `True` (the ready flag) is returned. -/
def ZenMLCustomModel.load (self : ZenMLCustomModel)
    (download : Except String String)
    (load_artifact : String → Except String PyObj) :
    Except String (ZenMLCustomModel × Bool) :=
  match download with
  | Except.error e => Except.error e
  | Except.ok model_file_dir =>
    match load_artifact model_file_dir with
    | Except.error _ => Except.ok (self, false)
    | Except.ok m =>
      Except.ok ({ self with model := some m, ready := true }, true)

/-- `ZenMLCustomModel.predict` (lines 58-74 of `zenml_custom_model.py`):
when a predict function is bound, its exception is re-raised as the generic
`Exception("Failed to predict: ...")`, and its result — whatever it is —
is returned as the prediction; when none is bound, `NotImplementedError`
is raised. -/
def ZenMLCustomModel.predict (self : ZenMLCustomModel) (request : PyObj) :
    Except PredictErr PyObj :=
  match self.predict_func with
  | some f =>
    (match f request with
     | Except.error e =>
       Except.error (PredictErr.predictionError ("Failed to predict: " ++ e))
     | Except.ok prediction => Except.ok prediction)
  | none =>
    Except.error (PredictErr.notImplementedError
      "Predict function is not implemented")

/-- A concrete custom model whose bound predict function answers with a
mapping. -/
def sample_model : ZenMLCustomModel :=
  { name := "fraud-model", model_uri := "s3://model",
    predict_func :=
      some (fun _ => Except.ok (PyObj.dict [("predictions", "[]")])),
    model := none, ready := false }

/-- Counterexample to claim C7 as stated: an exception raised while
fetching the model artifact (`kserve.Storage.download`) is NOT captured —
it propagates out of `load`, because the download happens outside the try
block. -/
theorem zenml_custom_model_load_counterexample :
    ZenMLCustomModel.load sample_model (Except.error "connection reset")
      (fun _ => Except.ok (PyObj.other "clf")) =
      Except.error "connection reset" := rfl

/-- Claim C7 (amended): exceptions raised while materializing the model
artifact are captured and turned into a `False` return with the server
state (in particular the ready flag) untouched; exceptions raised by the
fetch (`kserve.Storage.download`) propagate out of `load`; on success the
model is stored, the ready flag is set and `True` is returned. -/
theorem zenml_custom_model_load_characterization
    (self : ZenMLCustomModel) (download : Except String String)
    (load_artifact : String → Except String PyObj) :
    (∀ e, download = Except.error e →
      self.load download load_artifact = Except.error e) ∧
    (∀ d e, download = Except.ok d → load_artifact d = Except.error e →
      self.load download load_artifact = Except.ok (self, false)) ∧
    (∀ d m, download = Except.ok d → load_artifact d = Except.ok m →
      self.load download load_artifact =
        Except.ok ({ self with model := some m, ready := true }, true)) := by
  refine ⟨?_, ?_, ?_⟩
  · intro e he
    simp [ZenMLCustomModel.load, he]
  · intro d e hd hla
    simp [ZenMLCustomModel.load, hd, hla]
  · intro d m hd hla
    simp [ZenMLCustomModel.load, hd, hla]

/-- Witness for C7 (amended) at a concrete input. -/
theorem zenml_custom_model_load_characterization_witness :
    ZenMLCustomModel.load sample_model (Except.ok "/mnt/models")
      (fun _ => Except.ok (PyObj.other "clf")) =
      Except.ok ({ sample_model with
        model := some (PyObj.other "clf"), ready := true }, true) :=
  (zenml_custom_model_load_characterization sample_model
    (Except.ok "/mnt/models")
    (fun _ => Except.ok (PyObj.other "clf"))).2.2
    "/mnt/models" (PyObj.other "clf") rfl rfl

/-- A concrete custom model whose bound predict function answers with a
non-mapping value. -/
def sample_nonmapping_model : ZenMLCustomModel :=
  { name := "fraud-model", model_uri := "s3://model",
    predict_func := some (fun _ => Except.ok (PyObj.other "42")),
    model := some (PyObj.other "clf"), ready := true }

/-- Counterexample to claim C8 as stated: a bound predict function that
returns a non-mapping value does NOT make `predict` fail — the non-mapping
result is returned as a successful prediction (no mapping check exists). -/
theorem zenml_custom_model_predict_counterexample :
    ZenMLCustomModel.predict sample_nonmapping_model
      (PyObj.dict [("instances", "[]")]) =
      Except.ok (PyObj.other "42") ∧
    (PyObj.other "42").is_mapping = false :=
  ⟨rfl, rfl⟩

/-- Claim C8 (amended): `predict` fails with the generic prediction error
when the bound predict function raises, fails with a
`NotImplementedError`-class error when no predict function is bound, and
otherwise returns the predict function's result unchanged — whether or not
that result is a mapping. -/
theorem zenml_custom_model_predict_characterization
    (self : ZenMLCustomModel) (request : PyObj) :
    (self.predict_func = none →
      self.predict request = Except.error
        (PredictErr.notImplementedError
          "Predict function is not implemented")) ∧
    (∀ f e, self.predict_func = some f → f request = Except.error e →
      self.predict request = Except.error
        (PredictErr.predictionError ("Failed to predict: " ++ e))) ∧
    (∀ f p, self.predict_func = some f → f request = Except.ok p →
      self.predict request = Except.ok p) := by
  refine ⟨?_, ?_, ?_⟩
  · intro h
    simp [ZenMLCustomModel.predict, h]
  · intro f e hf he
    simp [ZenMLCustomModel.predict, hf, he]
  · intro f p hf hp
    simp [ZenMLCustomModel.predict, hf, hp]

/-- Witness for C8 (amended) at a concrete input. -/
theorem zenml_custom_model_predict_characterization_witness :
    ZenMLCustomModel.predict sample_model
      (PyObj.dict [("instances", "[]")]) =
      Except.ok (PyObj.dict [("predictions", "[]")]) :=
  (zenml_custom_model_predict_characterization sample_model
    (PyObj.dict [("instances", "[]")])).2.2
    (fun _ => Except.ok (PyObj.dict [("predictions", "[]")]))
    (PyObj.dict [("predictions", "[]")]) rfl rfl

/-- Counterexample to claim C4 as stated: a predict_function reference
whose import succeeds but yields a non-callable attribute passes
validation — construction succeeds even though the reference does not
resolve to a callable (the validator catches only `AttributeError` and
never checks callability). -/
theorem custom_deploy_validation_counterexample :
    mkCustomDeployParamters (fun _ => ImportResult.found false)
      "pkg.mod.not_callable" =
      Except.ok { predict_function := "pkg.mod.not_callable" } ∧
    (fun _ => ImportResult.found false) "pkg.mod.not_callable" ≠
      ImportResult.found true ∧
    "pkg.mod.not_callable" ≠ "" := by
  refine ⟨rfl, by decide, by decide⟩

/-- Claim C4 (amended): constructing the custom-deploy parameters fails
with a configuration-validation (ValueError) error exactly when the
predict_function reference is empty or the import raises
`AttributeError`; any attribute the import finds — callable or not —
passes validation and is kept verbatim; an `ImportError`-class failure is
not caught and propagates as such, not as a validation error. The failure
happens at construction time (the validator performs no registry
interaction). -/
theorem custom_deploy_validation_characterization
    (resolve : String → ImportResult) (v : String) :
    ((∃ m, mkCustomDeployParamters resolve v =
        Except.error (PyError.valueError m)) ↔
      (v = "" ∨ resolve v = ImportResult.attributeError)) ∧
    (∀ b, resolve v = ImportResult.found b → v ≠ "" →
      mkCustomDeployParamters resolve v =
        Except.ok { predict_function := v }) ∧
    (resolve v = ImportResult.importError → v ≠ "" →
      ∃ m, mkCustomDeployParamters resolve v =
        Except.error (PyError.importError m)) := by
  refine ⟨?_, ?_, ?_⟩
  · by_cases hv : v = ""
    · simp [mkCustomDeployParamters, predict_function_validate, hv]
    · cases hres : resolve v <;>
        simp [mkCustomDeployParamters, predict_function_validate, hv, hres,
          Except.bind]
  · intro b hres hv
    simp [mkCustomDeployParamters, predict_function_validate, hv, hres,
      Except.bind]
  · intro hres hv
    simp [mkCustomDeployParamters, predict_function_validate, hv, hres,
      Except.bind]

/-- Witness for C4 (amended) at a concrete input. -/
theorem custom_deploy_validation_characterization_witness :
    mkCustomDeployParamters (fun _ => ImportResult.found true)
      "pkg.mod.fn" = Except.ok { predict_function := "pkg.mod.fn" } :=
  (custom_deploy_validation_characterization
    (fun _ => ImportResult.found true) "pkg.mod.fn").2.1
    true rfl (by decide)

/-- The failure condition of claim C6 as stated: some supplied path — the
model class, a non-builtin handler, an extra file, or the torch config —
fails the inside-project-root check. -/
def torch_outside_root (inside : String → Bool) (p : TorchServeInput) :
    Bool :=
  !inside p.model_class ||
  (!(decide (p.handler ∈ TORCH_HANDLERS)) && !inside p.handler) ||
  (match p.extra_files with
   | none => false
   | some l => l.any (fun f => !inside f)) ||
  (match p.torch_config with
   | none => false
   | some t => !inside t)

/-- The actual failure condition of `TorchServeParamters` construction:
claim C6's outside-root condition, plus the required-field checks — an
empty model class or an empty handler also fails — while an empty (falsy)
torch config is exempt from the root check. -/
def torch_construction_fails (inside : String → Bool)
    (p : TorchServeInput) : Bool :=
  p.model_class == "" || !inside p.model_class ||
  p.handler == "" ||
  (!(decide (p.handler ∈ TORCH_HANDLERS)) && !inside p.handler) ||
  (match p.extra_files with
   | none => false
   | some l => l.any (fun f => !inside f)) ||
  (match p.torch_config with
   | none => false
   | some t => t != "" && !inside t)

/-- The validated parameters produced on success: each path field joined
onto the source root, builtin handler names and a falsy torch config kept
verbatim, the fields without validators passed through. -/
def torch_expected (root : String) (p : TorchServeInput) :
    TorchServeParamters :=
  { model_class := os_path_join root p.model_class,
    handler := if p.handler ∈ TORCH_HANDLERS then p.handler
      else os_path_join root p.handler,
    extra_files := p.extra_files.map (fun l => l.map (os_path_join root)),
    requirements_file := p.requirements_file,
    model_version := p.model_version,
    torch_config := p.torch_config.map
      (fun t => if t = "" then t else os_path_join root t) }

/-- The extra-files loop errors exactly when some file fails the
inside-repository check, and otherwise joins every file onto the source
root. -/
theorem validate_extra_files_list_eq (inside : String → Bool)
    (root : String) (l : List String) :
    validate_extra_files_list inside root l =
      if l.any (fun f => !inside f) then
        Except.error
          (PyError.valueError "Extra file path must be inside the repository.")
      else Except.ok (l.map (os_path_join root)) := by
  induction l with
  | nil => rfl
  | cons f fs ih =>
    by_cases hf : inside f = true <;>
      by_cases hfs : fs.any (fun x => !inside x) = true <;>
      simp [validate_extra_files_list, ih, hf, hfs]

/-- Claim C6 (amended): constructing `TorchServeParamters` fails with a
configuration-validation error exactly when some path field fails the
inside-project-root check — model class, non-builtin handler, an extra
file, or a nonempty torch config — or when the model class or the handler
is empty; otherwise it succeeds with every path field rewritten to its
root-joined form (builtin handler names and an empty torch config kept
verbatim). -/
theorem torch_validation_characterization
    (inside : String → Bool) (root : String) (p : TorchServeInput) :
    ((∃ m, mkTorchServeParamters inside root p =
        Except.error (PyError.valueError m)) ↔
      torch_construction_fails inside p = true) ∧
    (torch_construction_fails inside p = false →
      mkTorchServeParamters inside root p =
        Except.ok (torch_expected root p)) := by
  obtain ⟨mc, hd, ef, rf, mv, tc⟩ := p
  rcases ef with _ | l <;> rcases tc with _ | t
  · by_cases h1 : mc = "" <;> cases h2 : inside mc <;>
      by_cases h3 : hd = "" <;> by_cases h4 : hd ∈ TORCH_HANDLERS <;>
      cases h5 : inside hd <;>
      simp [mkTorchServeParamters, model_class_validate, handler_validate,
        extra_files_validate, torch_config_validate,
        torch_construction_fails, torch_expected, beq_iff_eq, bne_iff_ne,
        h1, h2, h3, h4, h5]
  · by_cases h1 : mc = "" <;> cases h2 : inside mc <;>
      by_cases h3 : hd = "" <;> by_cases h4 : hd ∈ TORCH_HANDLERS <;>
      cases h5 : inside hd <;>
      by_cases h7 : t = "" <;> cases h8 : inside t <;>
      simp [mkTorchServeParamters, model_class_validate, handler_validate,
        extra_files_validate, torch_config_validate,
        torch_construction_fails, torch_expected, beq_iff_eq, bne_iff_ne,
        h1, h2, h3, h4, h5, h7, h8]
  · by_cases h1 : mc = "" <;> cases h2 : inside mc <;>
      by_cases h3 : hd = "" <;> by_cases h4 : hd ∈ TORCH_HANDLERS <;>
      cases h5 : inside hd <;>
      cases h6 : l.any (fun f => !inside f) <;>
      simp [mkTorchServeParamters, model_class_validate, handler_validate,
        extra_files_validate, torch_config_validate,
        torch_construction_fails, torch_expected,
        validate_extra_files_list_eq, beq_iff_eq, bne_iff_ne,
        h1, h2, h3, h4, h5, h6]
  · by_cases h1 : mc = "" <;> cases h2 : inside mc <;>
      by_cases h3 : hd = "" <;> by_cases h4 : hd ∈ TORCH_HANDLERS <;>
      cases h5 : inside hd <;>
      cases h6 : l.any (fun f => !inside f) <;>
      by_cases h7 : t = "" <;> cases h8 : inside t <;>
      simp [mkTorchServeParamters, model_class_validate, handler_validate,
        extra_files_validate, torch_config_validate,
        torch_construction_fails, torch_expected,
        validate_extra_files_list_eq, beq_iff_eq, bne_iff_ne,
        h1, h2, h3, h4, h5, h6, h7, h8]

/-- A TorchServe input with an empty model class and every path trivially
inside the project root. -/
def sample_torch_empty_mc : TorchServeInput :=
  { model_class := "", handler := "image_classifier", extra_files := none,
    requirements_file := none, model_version := some "1.0",
    torch_config := none }

/-- Counterexample to claim C6 as stated: with an inside-repository check
that accepts every path, no field resolves outside the project root
(`torch_outside_root` is false), yet construction still fails — the empty
model class fails the required-field check, so the claim's "succeeds
otherwise" does not hold. -/
theorem torch_validation_counterexample :
    mkTorchServeParamters (fun _ => true) "/project" sample_torch_empty_mc
      = Except.error
        (PyError.valueError "Model class file path is required.") ∧
    torch_outside_root (fun _ => true) sample_torch_empty_mc = false :=
  ⟨rfl, rfl⟩

/-- A fully valid TorchServe input. -/
def sample_torch_ok : TorchServeInput :=
  { model_class := "models/net.py", handler := "image_classifier",
    extra_files := some ["deps/utils.py"],
    requirements_file := some "requirements.txt",
    model_version := some "1.0",
    torch_config := some "config/torchserve.properties" }

/-- Witness for C6 (amended) at a concrete input. -/
theorem torch_validation_characterization_witness :
    torch_construction_fails (fun _ => true) sample_torch_ok = false ∧
    mkTorchServeParamters (fun _ => true) "/project" sample_torch_ok =
      Except.ok (torch_expected "/project" sample_torch_ok) :=
  ⟨rfl, (torch_validation_characterization (fun _ => true) "/project"
    sample_torch_ok).2 rfl⟩
